import Mathlib

/-!
Verification of the CO2Logger pipeline (src/CO2LoggerReading.py).

The script's numeric core is embedded shallowly:
* packed-coordinate conversion (`convert_ddmmss_to_dd`),
* UTM zone selection (`select_zone`, inline at line 74 of the source),
* time formatting and elapsed seconds (`format_time_string`,
  `calculate_relative_seconds`, via `strptime`-style validation),
* dataset assembly (`load_and_prepare`, from `load_and_prepare_data`),
* the two consumers (`draw_plots`, `generate_kml_trajectory`) and their
  color mapping (`chartColorOf` via `matplotlib.colors.Normalize`,
  `kmlColorOf` / `get_kml_color` from the inner function of the exporter).

Machine floats are modelled as exact rationals; the one place where the
source can hit a non-finite float value (the unguarded division by
`max_co2 - min_co2` in `get_kml_color`) is modelled explicitly by the
branch structure of `kmlColorOf` (see its comment).  Python cells that may
hold a number, a non-numeric string or NaN are modelled by `PyCell`;
Python exceptions are modelled by `Except PipeError`.
-/

attribute [local semireducible] Rat.add Rat.mul Rat.inv Rat.sub Rat.ofScientific

/-- A pandas cell: a finite number, a non-numeric text cell, or NaN
(missing).  Numeric-looking strings are not modelled; `str` stands for
text that Python numeric coercion rejects. -/
inductive PyCell where
  | num (q : ℚ)
  | str (s : String)
  | nan
deriving DecidableEq

/-- The Python exceptions the pipeline can raise while assembling the
dataset: `TypeError` (arithmetic on a text cell), `ValueError`
(`int(nan)`, `int` of a text cell, or a `strptime` mismatch), and
`IndexError` (`iloc[0]` on an empty frame).  None of the constructors
carries a row index or a field name: the source has no row-level
error wrapping. -/
inductive PipeError where
  | typeError
  | valueError
  | indexError
deriving DecidableEq

/-- Python `int(x)` on a finite float: truncation toward zero.
(`Rat.floor` and `Rat.ceil` are used rather than `⌊⌋`/`⌈⌉` so that the
definition evaluates by kernel reduction; they agree with the floor and
ceiling of `ℚ`.) -/
def pyInt (q : ℚ) : ℤ :=
  if q < 0 then q.ceil else q.floor

/-- Python `str(int)`: the decimal digits, with a leading minus sign for
a negative value, as a list of characters. -/
def pyStr (z : ℤ) : List Char :=
  if z < 0 then '-' :: Nat.toDigits 10 z.natAbs else Nat.toDigits 10 z.toNat

/-- Python `str.zfill`: left-pad with zeros to the given width, keeping a
leading minus sign in front of the padding. -/
def pyZfill (s : List Char) (w : ℕ) : List Char :=
  match s with
  | '-' :: rest => '-' :: (List.replicate (w - (rest.length + 1)) '0' ++ rest)
  | _ => List.replicate (w - s.length) '0' ++ s

/-- Source lines 29-33: `degrees = int(coord // 100)`;
`decimal_minutes = coord % 100`; `return degrees + decimal_minutes / 60`.
Python `//` is the floor and `%` the floor-residue (sign of the divisor),
so `int(coord // 100)` is exactly the floor of `coord / 100`. -/
def convert_ddmmss_to_dd (coord : ℚ) : ℚ :=
  ((coord / 100).floor : ℚ) + (coord - 100 * ((coord / 100).floor : ℚ)) / 60

/-- Source lines 35-38: `str(int(time_value)).zfill(6)` sliced as
`s[0:2] : s[2:4] : s[4:6]`.  The `int()` step is done by the caller
(`cellToInt`), as in the source where the cell value is passed in. -/
def format_time_string (z : ℤ) : String :=
  let cs := pyZfill (pyStr z) 6
  String.mk (cs.take 2 ++ [':'] ++ (cs.drop 2).take 2 ++ [':'] ++ (cs.drop 4).take 2)

/-- `datetime.strptime(str(int(t)).zfill(6), '%H%M%S')`, reduced to its
seconds-since-midnight value.  It succeeds exactly when the zero-filled
string is six digits parsing as `%H < 24`, `%M < 60`, `%S < 62`
(strptime accepts leap seconds 60 and 61); otherwise `ValueError`. -/
def strptimeHMS (z : ℤ) : Except PipeError ℤ :=
  if 0 ≤ z ∧ z < 1000000 then
    let n := z.toNat
    if n / 10000 < 24 ∧ n / 100 % 100 < 60 ∧ n % 100 < 62 then
      Except.ok ((n / 10000 * 3600 + n / 100 % 100 * 60 + n % 100 : ℕ) : ℤ)
    else Except.error PipeError.valueError
  else Except.error PipeError.valueError

/-- Python `int(cell)`: truncates a numeric cell, raises `ValueError` on
NaN and on non-numeric text. -/
def cellToInt : PyCell → Except PipeError ℤ
  | PyCell.num q => Except.ok (pyInt q)
  | PyCell.str _ => Except.error PipeError.valueError
  | PyCell.nan => Except.error PipeError.valueError

/-- `convert_ddmmss_to_dd` applied to a cell, as `Series.apply` does:
on NaN, `int(nan // 100)` raises `ValueError`; on a text cell,
`'…' // 100` raises `TypeError`. -/
def applyConvert : PyCell → Except PipeError ℚ
  | PyCell.num q => Except.ok (convert_ddmmss_to_dd q)
  | PyCell.str _ => Except.error PipeError.typeError
  | PyCell.nan => Except.error PipeError.valueError

/-- Source line 74: `utm_zone = int((mean_lon + 180) / 6) + 1`. -/
def select_zone (meanLon : ℚ) : ℤ :=
  pyInt ((meanLon + 180) / 6) + 1

/-- `Series.mean()`: arithmetic mean.  (The empty case, where pandas
yields NaN, is handled by the caller before this is used.) -/
def pdMean (l : List ℚ) : ℚ :=
  l.foldl (· + ·) 0 / (l.length : ℚ)

/-- One raw input row, as parsed by `pd.read_csv` with the fixed column
list `['Time', 'Latitude', 'Longitude', 'CO2', 'Temperature', 'Humidity']`. -/
structure RawRow where
  time : PyCell
  latitude : PyCell
  longitude : PyCell
  co2 : PyCell
  temperature : PyCell
  humidity : PyCell
deriving DecidableEq

/-- One row of the prepared frame returned by `load_and_prepare_data`:
the six raw columns plus the derived columns added at lines 68-90. -/
structure Enriched where
  time : PyCell
  latitude : PyCell
  longitude : PyCell
  co2 : PyCell
  temperature : PyCell
  humidity : PyCell
  latitude_dd : ℚ
  longitude_dd : ℚ
  easting : ℚ
  northing : ℚ
  utm_zone : ℤ
  time_hhmmss : String
  relative_seconds : ℤ
deriving DecidableEq

/-- Row-by-row effectful map, as `Series.apply` / `DataFrame.apply`
evaluate their function top to bottom and re-raise the first exception. -/
def mapExcept (g : α → Except PipeError β) : List α → Except PipeError (List β)
  | [] => Except.ok []
  | a :: as => do
      let b ← g a
      let bs ← mapExcept g as
      Except.ok (b :: bs)

/-- Source lines 40-45: parse the row's `Time` cell with `int` +
`strptime`, subtract the pre-parsed start time, return total seconds. -/
def calculate_relative_seconds (timeCell : PyCell) (startSecs : ℤ) :
    Except PipeError ℤ := do
  let z ← cellToInt timeCell
  let s ← strptimeHMS z
  Except.ok (s - startSecs)

/-- Zip the computed columns back into rows, one `Enriched` per input
row.  The pyproj forward transform (an external library call) is the
parameter `f`, applied point-wise with `always_xy` ordering
(longitude first), as at line 78. -/
def buildRows (f : ℚ → ℚ → ℚ × ℚ) (zone : ℤ) :
    List RawRow → List ℚ → List ℚ → List String → List ℤ → List Enriched
  | r :: rs, la :: las, lo :: los, t :: ts, e :: es =>
      { time := r.time, latitude := r.latitude, longitude := r.longitude,
        co2 := r.co2, temperature := r.temperature, humidity := r.humidity,
        latitude_dd := la, longitude_dd := lo,
        easting := (f lo la).1, northing := (f lo la).2,
        utm_zone := zone, time_hhmmss := t, relative_seconds := e }
        :: buildRows f zone rs las los ts es
  | _, _, _, _, _ => []

/-- The emptiness failure implicit at lines 73-74: on an empty frame
pandas' mean is NaN and `int(nan + 180 …)` raises `ValueError`. -/
def checkNonempty (lons : List ℚ) : Except PipeError Unit :=
  if lons.isEmpty then Except.error PipeError.valueError else Except.ok ()

/-- `df['Time'].iloc[0]` (source line 87): `IndexError` on an empty
frame, otherwise the first row's time cell. -/
def headTime (rows : List RawRow) : Except PipeError PyCell :=
  match rows.head? with
  | none => Except.error PipeError.indexError
  | some r => Except.ok r.time

/-- Source lines 48-92, `load_and_prepare_data`, starting from the parsed
rows (CSV reading itself is an external collaborator).  Column order
matches the source: latitude conversion, longitude conversion, mean
longitude and zone, the UTM transform `f`, the formatted time column,
the start-time parse, and the relative-seconds column.
The `CRS.from_epsg` lookups are external pyproj calls with no modelled
effect on the frame. -/
def load_and_prepare (f : ℚ → ℚ → ℚ × ℚ) (rows : List RawRow) :
    Except PipeError (List Enriched) := do
  let lats ← mapExcept (fun r => applyConvert r.latitude) rows
  let lons ← mapExcept (fun r => applyConvert r.longitude) rows
  let _ ← checkNonempty lons
  let meanLon := pdMean lons
  let zone := select_zone meanLon
  let times ← mapExcept (fun r => (cellToInt r.time).map format_time_string) rows
  let startCell ← headTime rows
  let startZ ← cellToInt startCell
  let startS ← strptimeHMS startZ
  let rels ← mapExcept (fun r => calculate_relative_seconds r.time startS) rows
  Except.ok (buildRows f zone rows lats lons times rels)

/-- An RGBA color with channels in [0,1], as matplotlib returns it. -/
abbrev Color := ℚ × ℚ × ℚ × ℚ

/-- Modelled from the spec: the external matplotlib colormap `RdYlGn_r`
is specified (§4.4) as a fixed ramp with three anchor colors, green at
`t = 0`, yellow at `t = 0.5`, red at `t = 1`, interpolated continuously.
The anchors are the actual end/mid colors of `RdYlGn_r`
(`#006837`, `#ffffbf`, `#a50026`). -/
def green_anchor : Color := (0, 104 / 255, 55 / 255, 1)

/-- Modelled from the spec: the yellow mid anchor of the ramp. -/
def yellow_anchor : Color := (1, 1, 191 / 255, 1)

/-- Modelled from the spec: the red high anchor of the ramp. -/
def red_anchor : Color := (165 / 255, 0, 38 / 255, 1)

/-- The fully transparent black that matplotlib colormaps return for a
NaN ("bad") input. -/
def badColor : Color := (0, 0, 0, 0)

/-- Component-wise linear interpolation between two colors. -/
def lerpC (c d : Color) (t : ℚ) : Color :=
  (c.1 + t * (d.1 - c.1),
   c.2.1 + t * (d.2.1 - c.2.1),
   c.2.2.1 + t * (d.2.2.1 - c.2.2.1),
   c.2.2.2 + t * (d.2.2.2 - c.2.2.2))

/-- Modelled from the spec: the `RdYlGn_r` ramp on a finite argument.
Out-of-range arguments are clamped, matching matplotlib's under/over
handling whose defaults are the endpoint colors. -/
def cmapRdYlGn_r (t : ℚ) : Color :=
  let u := max 0 (min 1 t)
  if u ≤ 1 / 2 then lerpC green_anchor yellow_anchor (2 * u)
  else lerpC yellow_anchor red_anchor (2 * u - 1)

/-- `matplotlib.colors.Normalize(vmin, vmax)` on a finite value: when
`vmin == vmax` matplotlib fills the result with 0; otherwise
`(v - vmin) / (vmax - vmin)` (no clipping; the colormap clamps). -/
def mplNormalize (vmin vmax v : ℚ) : ℚ :=
  if vmax = vmin then 0 else (v - vmin) / (vmax - vmin)

/-- The chart trajectory color of one point (source lines 160-167):
the `RdYlGn_r` colormap composed with `Normalize(min_co2, max_co2)`. -/
def chartColorOf (vmin vmax v : ℚ) : Color :=
  cmapRdYlGn_r (mplNormalize vmin vmax v)

/-- The RGBA color the exporter samples from the colormap (source lines
212-218): `normalized_value = (v - min) / (max - min)` with no guard.
When `max = min` the float division is by zero: for `v = min` the IEEE
result is NaN and the colormap returns its bad color; for other `v` the
result is ±infinity and the colormap returns its over/under (endpoint)
color.  The branch structure makes those float outcomes explicit. -/
def kmlColorOf (vmin vmax v : ℚ) : Color :=
  if vmax = vmin then
    if v = vmin then badColor
    else if vmin < v then cmapRdYlGn_r 1 else cmapRdYlGn_r 0
  else cmapRdYlGn_r ((v - vmin) / (vmax - vmin))

/-- Source lines 212-222, `get_kml_color`: the sampled RGBA quantized by
`int(c * 255)` per channel (the final `simplekml.Color.rgb` hex
serialization is an external collaborator). -/
def get_kml_color (vmin vmax v : ℚ) : ℤ × ℤ × ℤ × ℤ :=
  let c := kmlColorOf vmin vmax v
  (pyInt (c.1 * 255), pyInt (c.2.1 * 255),
   pyInt (c.2.2.1 * 255), pyInt (c.2.2.2 * 255))

/-- `pd.to_numeric(…, errors='coerce')` on one cell: numbers pass
through, NaN stays NaN, non-numeric text becomes NaN. -/
def to_numeric_coerce : PyCell → PyCell
  | PyCell.num q => PyCell.num q
  | PyCell.str _ => PyCell.nan
  | PyCell.nan => PyCell.nan

/-- Source lines 103-105: `draw_plots` coerces the three measurement
columns in place on the frame it was given. -/
def coerceRow (r : Enriched) : Enriched :=
  { r with co2 := to_numeric_coerce r.co2,
           temperature := to_numeric_coerce r.temperature,
           humidity := to_numeric_coerce r.humidity }

/-- Extract the numeric value of a cell, `none` for NaN or text. -/
def cellToOpt : PyCell → Option ℚ
  | PyCell.num q => some q
  | _ => none

/-- Whether a cell holds a finite number. -/
def numericCell : PyCell → Bool
  | PyCell.num _ => true
  | _ => false

/-- `df['CO2'].min()` and `.max()` (sources lines 155-156 and 200-201):
pandas skips NaN; on an all-NaN or empty column both are NaN, modelled
as `none`. -/
def co2Bounds (df : List Enriched) : Option (ℚ × ℚ) :=
  let vals := df.filterMap (fun r => cellToOpt r.co2)
  match vals.min?, vals.max? with
  | some m, some M => some (m, M)
  | _, _ => none

/-- Color of one scatter point in the chart: a NaN CO2 value is mapped
to the colormap's bad color; otherwise `Normalize` + colormap.  The
`none` bounds case cannot co-occur with a numeric value and is given the
bad color. -/
def scatterPointColor (b : Option (ℚ × ℚ)) (cell : PyCell) : Color :=
  match cellToOpt cell, b with
  | some v, some (m, M) => chartColorOf m M v
  | _, _ => badColor

/-- Source lines 98-188, `draw_plots`, reduced to its dataset-visible
effects: the in-place numeric coercion of the three measurement columns
(returned as the first component: the frame after the call) and the
colors given to the trajectory scatter points (second component).  The
axes, legends and tick labels are external rendering primitives. -/
def draw_plots (df : List Enriched) : List Enriched × List Color :=
  let df2 := df.map coerceRow
  let b := co2Bounds df2
  (df2, df2.map (fun r => scatterPointColor b r.co2))

/-- Marker color of one KML point: `get_kml_color(row['CO2'])` as
sampled from the colormap.  A NaN CO2 value propagates through the
normalization to NaN, hence the bad color.  (In the program the exporter
always runs after `draw_plots` has coerced the columns, so no text cell
reaches it; text is modelled like the missing case.) -/
def kmlPointColor (b : Option (ℚ × ℚ)) (cell : PyCell) : Color :=
  match cellToOpt cell, b with
  | some v, some (m, M) => kmlColorOf m M v
  | _, _ => badColor

/-- Source lines 194-266, `generate_kml_trajectory`, reduced to its
dataset-visible effects: the frame after the call (first component —
the function only reads it), the line-track coordinates read from the
stored decimal-degree columns (second), and the per-marker colors
(third).  The placemark/serialization calls are external simplekml
collaborators. -/
def generate_kml_trajectory (df : List Enriched) :
    List Enriched × List (ℚ × ℚ) × List Color :=
  let b := co2Bounds df
  (df, df.map (fun r => (r.longitude_dd, r.latitude_dd)),
   df.map (fun r => kmlPointColor b r.co2))

/-- The three rows of the end-to-end example (spec §8), already parsed
from the `;`-separated file by the external CSV collaborator. -/
def rows9 : List RawRow :=
  [ { time := PyCell.num 100000, latitude := PyCell.num 4530,
      longitude := PyCell.num 1200, co2 := PyCell.num 400,
      temperature := PyCell.num 20, humidity := PyCell.num 50 },
    { time := PyCell.num 100100, latitude := PyCell.num 4530.1,
      longitude := PyCell.num 1200.1, co2 := PyCell.num 800,
      temperature := PyCell.num 21, humidity := PyCell.num 51 },
    { time := PyCell.num 100200, latitude := PyCell.num 4530.2,
      longitude := PyCell.num 1200.2, co2 := PyCell.num 1200,
      temperature := PyCell.num 22, humidity := PyCell.num 52 } ]

/-- A fully numeric enriched row, used as a concrete consumer input. -/
def rowNumeric : Enriched :=
  { time := PyCell.num 100000, latitude := PyCell.num 4530,
    longitude := PyCell.num 1200, co2 := PyCell.num 400,
    temperature := PyCell.num 20, humidity := PyCell.num 50,
    latitude_dd := 45.5, longitude_dd := 12, easting := 0, northing := 0,
    utm_zone := 33, time_hhmmss := "10:00:00", relative_seconds := 0 }

/-- An enriched row with a non-numeric temperature cell, as produced
when the CSV held text in the temperature column. -/
def rowBadTemp : Enriched :=
  { rowNumeric with temperature := PyCell.str "n/a" }

/-- A fixed instantiation of the external projection transform, used in
concrete evaluations (its values never influence the asserted fields). -/
def constTransform : ℚ → ℚ → ℚ × ℚ := fun _ _ => (0, 0)

/-- The frame assembled from `rows9` under an arbitrary projection
transform `f`, written out field by field (the mean longitude is
7201/600 ≈ 12.0017 degrees, hence UTM zone 33). -/
def df9f (f : ℚ → ℚ → ℚ × ℚ) : List Enriched :=
  [ { time := PyCell.num 100000, latitude := PyCell.num 4530,
      longitude := PyCell.num 1200, co2 := PyCell.num 400,
      temperature := PyCell.num 20, humidity := PyCell.num 50,
      latitude_dd := 91 / 2, longitude_dd := 12,
      easting := (f 12 (91 / 2)).1, northing := (f 12 (91 / 2)).2,
      utm_zone := 33, time_hhmmss := "10:00:00", relative_seconds := 0 },
    { time := PyCell.num 100100, latitude := PyCell.num 4530.1,
      longitude := PyCell.num 1200.1, co2 := PyCell.num 800,
      temperature := PyCell.num 21, humidity := PyCell.num 51,
      latitude_dd := 27301 / 600, longitude_dd := 7201 / 600,
      easting := (f (7201 / 600) (27301 / 600)).1,
      northing := (f (7201 / 600) (27301 / 600)).2,
      utm_zone := 33, time_hhmmss := "10:01:00", relative_seconds := 60 },
    { time := PyCell.num 100200, latitude := PyCell.num 4530.2,
      longitude := PyCell.num 1200.2, co2 := PyCell.num 1200,
      temperature := PyCell.num 22, humidity := PyCell.num 52,
      latitude_dd := 13651 / 300, longitude_dd := 3601 / 300,
      easting := (f (3601 / 300) (13651 / 300)).1,
      northing := (f (3601 / 300) (13651 / 300)).2,
      utm_zone := 33, time_hhmmss := "10:02:00", relative_seconds := 120 } ]

/-- A one-row dataset whose latitude field holds non-numeric text. -/
def rowsBadLat0 : List RawRow :=
  [ { time := PyCell.num 100000, latitude := PyCell.str "+4530.00",
      longitude := PyCell.num 1200, co2 := PyCell.num 400,
      temperature := PyCell.num 20, humidity := PyCell.num 50 } ]

/-- A three-row dataset whose third row (index 2) has a non-numeric
longitude; rows 0 and 1 are fully numeric. -/
def rowsBadLon2 : List RawRow :=
  [ { time := PyCell.num 100000, latitude := PyCell.num 4530,
      longitude := PyCell.num 1200, co2 := PyCell.num 400,
      temperature := PyCell.num 20, humidity := PyCell.num 50 },
    { time := PyCell.num 100100, latitude := PyCell.num 4530.1,
      longitude := PyCell.num 1200.1, co2 := PyCell.num 800,
      temperature := PyCell.num 21, humidity := PyCell.num 51 },
    { time := PyCell.num 100200, latitude := PyCell.num 4530.2,
      longitude := PyCell.str "E01200.20", co2 := PyCell.num 1200,
      temperature := PyCell.num 22, humidity := PyCell.num 52 } ]

/-- A one-row dataset whose latitude is missing (NaN). -/
def rowsBadLatNan : List RawRow :=
  [ { time := PyCell.num 100000, latitude := PyCell.nan,
      longitude := PyCell.num 1200, co2 := PyCell.num 400,
      temperature := PyCell.num 20, humidity := PyCell.num 50 } ]

/-- A two-row frame whose CO2 values are all equal (degenerate scale). -/
def dfDegenerate : List Enriched :=
  [ rowNumeric,
    { rowNumeric with time := PyCell.num 100100,
                      time_hhmmss := "10:01:00", relative_seconds := 60 } ]

/-! ### Helper lemmas -/

/-- `Rat.floor` agrees with the floor of `ℚ`. -/
theorem ratFloor_eq (q : ℚ) : q.floor = ⌊q⌋ := by
  rw [Rat.floor_def', Rat.floor_def]

/-- `convert_ddmmss_to_dd` written with the floor of `ℚ`. -/
theorem convert_eq (coord : ℚ) :
    convert_ddmmss_to_dd coord =
      (⌊coord / 100⌋ : ℚ) + (coord - 100 * (⌊coord / 100⌋ : ℚ)) / 60 := by
  rw [convert_ddmmss_to_dd, ratFloor_eq]

/-- `int()` on a nonnegative value is the floor. -/
theorem pyInt_nonneg (q : ℚ) (h : 0 ≤ q) : pyInt q = ⌊q⌋ := by
  rw [pyInt, if_neg (not_lt.mpr h), ratFloor_eq]

/-- `int()` of a natural number is itself. -/
theorem pyInt_natCast (n : ℕ) : pyInt ((n : ℕ) : ℚ) = n := by
  rw [pyInt_nonneg _ (by positivity), Int.floor_natCast]

/-- The floor of `(D * 100 + M) / 100` for a minutes part below 100. -/
theorem floor_packed (D : ℕ) (M : ℚ) (h0 : 0 ≤ M) (h1 : M < 100) :
    ⌊((D : ℚ) * 100 + M) / 100⌋ = (D : ℤ) := by
  rw [Int.floor_eq_iff]
  constructor
  · rw [le_div_iff₀ (by norm_num : (0:ℚ) < 100)]
    push_cast
    linarith
  · rw [div_lt_iff₀ (by norm_num : (0:ℚ) < 100)]
    push_cast
    linarith

/-- Binding a success in `Except` applies the continuation. -/
theorem exceptOkBind (a : α) (g : α → Except PipeError β) :
    (Except.ok a : Except PipeError α) >>= g = g a := rfl

/-- Binding a failure in `Except` propagates the failure. -/
theorem exceptErrorBind (e : PipeError) (g : α → Except PipeError β) :
    (Except.error e : Except PipeError α) >>= g = Except.error e := rfl

/-- A successful `mapExcept` yields one output per input. -/
theorem mapExcept_ok_length (g : α → Except PipeError β) :
    ∀ (l : List α) (l2 : List β), mapExcept g l = Except.ok l2 → l2.length = l.length := by
  intro l
  induction l with
  | nil =>
    intro l2 h
    rw [mapExcept] at h
    cases h
    rfl
  | cons a as ih =>
    intro l2 h
    rw [mapExcept] at h
    cases hg : g a with
    | error e => rw [hg, exceptErrorBind] at h; cases h
    | ok b =>
      rw [hg, exceptOkBind] at h
      cases hm : mapExcept g as with
      | error e => rw [hm, exceptErrorBind] at h; cases h
      | ok bs =>
        rw [hm, exceptOkBind] at h
        cases h
        simp [ih bs hm]

/-- `buildRows` yields one enriched row per raw row when every column has
one entry per row. -/
theorem buildRows_length (f : ℚ → ℚ → ℚ × ℚ) (zone : ℤ) :
    ∀ (rows : List RawRow) (las los : List ℚ) (ts : List String) (es : List ℤ),
      las.length = rows.length → los.length = rows.length →
      ts.length = rows.length → es.length = rows.length →
      (buildRows f zone rows las los ts es).length = rows.length := by
  intro rows
  induction rows with
  | nil => intro las los ts es _ _ _ _; rfl
  | cons r rs ih =>
    intro las los ts es h1 h2 h3 h4
    cases las with
    | nil => simp at h1
    | cons la las =>
      cases los with
      | nil => simp at h2
      | cons lo los =>
        cases ts with
        | nil => simp at h3
        | cons t ts =>
          cases es with
          | nil => simp at h4
          | cons e es =>
            simp only [buildRows, List.length_cons]
            rw [ih las los ts es (by simpa using h1) (by simpa using h2)
              (by simpa using h3) (by simpa using h4)]

/-- `strptime` of a validly packed HHMMSS value: seconds since midnight. -/
theorem strptime_packed (H M S : ℕ) (hH : H < 24) (hM : M < 60) (hS : S < 60) :
    strptimeHMS ((H * 10000 + M * 100 + S : ℕ) : ℤ)
      = Except.ok ((H * 3600 + M * 60 + S : ℕ) : ℤ) := by
  rw [strptimeHMS]
  split
  · simp only [Int.toNat_natCast]
    split
    · exact congrArg Except.ok (by omega)
    · rename_i hg
      exact absurd ⟨by omega, by omega, by omega⟩ hg
  · rename_i hg
    refine absurd ⟨by positivity, ?_⟩ hg
    exact_mod_cast (by omega : H * 10000 + M * 100 + S < 1000000)

/-! ### Claims -/

/-- C1 (counterexample): on a dataset whose CO2 values are all 400, the
chart trajectory assigns every point the t = 0 ramp color (via
`Normalize`'s equal-bounds handling) while the exporter's marker
function divides by zero and yields the colormap's bad color, so the two
consumers' color functions are not extensionally equal on the CO2
range. -/
theorem color_consistency_cex :
    (draw_plots dfDegenerate).2
      ≠ (generate_kml_trajectory ((draw_plots dfDegenerate).1)).2.2 := by
  decide

/-- C1 (amended): whenever the dataset's CO2 minimum is strictly below
its maximum, the chart's color function (colormap after `Normalize`) and
the exporter's per-point color function agree on every CO2 value. -/
theorem color_consistency_amended (vmin vmax v : ℚ) (h : vmin < vmax) :
    chartColorOf vmin vmax v = kmlColorOf vmin vmax v := by
  have hne : ¬(vmax = vmin) := ne_of_gt h
  simp [chartColorOf, mplNormalize, kmlColorOf, hne]

/-- C1 (witness): instantiation at bounds 0 < 10 and value 3. -/
theorem color_consistency_witness : chartColorOf 0 10 3 = kmlColorOf 0 10 3 :=
  color_consistency_amended 0 10 3 (by norm_num)

/-- C2 (counterexample): with min = max = 500, the exporter's sampled
color is not the t = 0 anchor color the claim requires, although the
chart path does return it. -/
theorem degenerate_scale_cex :
    kmlColorOf 500 500 500 ≠ cmapRdYlGn_r 0 ∧
    chartColorOf 500 500 500 = cmapRdYlGn_r 0 := by
  decide

/-- C2 (amended): when all CO2 values are equal the chart path
(`Normalize`) maps every value to t = 0 deterministically with no NaN,
but the exporter's unguarded division produces the float NaN, which the
colormap turns into its fully transparent bad color, quantized to
(0, 0, 0, 0). -/
theorem degenerate_scale_amended (m v : ℚ) :
    chartColorOf m m v = cmapRdYlGn_r 0 ∧
    kmlColorOf m m m = badColor ∧
    get_kml_color m m m = (0, 0, 0, 0) := by
  have h1 : chartColorOf m m v = cmapRdYlGn_r 0 := by
    rw [chartColorOf, mplNormalize, if_pos rfl]
  have h2 : kmlColorOf m m m = badColor := by
    rw [kmlColorOf, if_pos rfl, if_pos rfl]
  refine ⟨h1, h2, ?_⟩
  calc get_kml_color m m m
      = (pyInt ((0:ℚ) * 255), pyInt ((0:ℚ) * 255),
         pyInt ((0:ℚ) * 255), pyInt ((0:ℚ) * 255)) := by rw [get_kml_color, h2]; rfl
    _ = (0, 0, 0, 0) := by decide

/-- C3: for every packed coordinate D*100 + M with integer D ≥ 0 and
0 ≤ M < 60, the normalizer returns exactly D + M/60. -/
theorem convert_valid_packed (D : ℕ) (M : ℚ) (h0 : 0 ≤ M) (h1 : M < 60) :
    convert_ddmmss_to_dd ((D : ℚ) * 100 + M) = (D : ℚ) + M / 60 := by
  rw [convert_eq, floor_packed D M h0 (by linarith)]
  push_cast
  ring

/-- C3 (witness): 4530.5 converts to 45 degrees plus 30.5 minutes. -/
theorem convert_valid_packed_witness :
    convert_ddmmss_to_dd (((45 : ℕ) : ℚ) * 100 + 30.5) = ((45 : ℕ) : ℚ) + 30.5 / 60 :=
  convert_valid_packed 45 30.5 (by norm_num) (by norm_num)

/-- C4 (counterexample): the packed value 4570 has minutes part 70 ≥ 60,
yet the normalizer does not fail: it returns the decimal-degree value
45 + 70/60 = 277/6. -/
theorem invalid_minutes_cex : convert_ddmmss_to_dd 4570 = 277 / 6 := by decide

/-- C4 (amended): the normalizer performs no minutes validation: for any
packed value with minutes part 60 ≤ M < 100 it still returns D + M/60;
a NaN (non-finite) cell does fail, but with the bare `ValueError` raised
by `int()`, not a dedicated invalid-coordinate error. -/
theorem invalid_minutes_amended (D : ℕ) (M : ℚ) (h0 : 60 ≤ M) (h1 : M < 100) :
    convert_ddmmss_to_dd ((D : ℚ) * 100 + M) = (D : ℚ) + M / 60 ∧
    applyConvert PyCell.nan = Except.error PipeError.valueError := by
  refine ⟨?_, rfl⟩
  rw [convert_eq, floor_packed D M (by linarith) h1]
  push_cast
  ring

/-- C4 (witness): instantiation at 4570 = 45*100 + 70. -/
theorem invalid_minutes_witness :
    convert_ddmmss_to_dd (((45 : ℕ) : ℚ) * 100 + 70) = ((45 : ℕ) : ℚ) + 70 / 60 :=
  (invalid_minutes_amended 45 70 (by norm_num) (by norm_num)).1

/-- C5 (counterexample): the zone for mean longitude -3.0 is 30, not the
claimed 31, and at mean longitude 180 the formula yields 61, which is
outside [1, 60]. -/
theorem zone_example_cex : select_zone (-3) = 30 ∧ select_zone 180 = 61 := by
  decide

/-- C5 (amended): for every mean longitude in [-180, 180) the selected
zone equals ⌊(lon + 180)/6⌋ + 1 and is an integer in [1, 60]; in
particular select_zone(-3) = 30, select_zone(177) = 60,
select_zone(-180) = 1, while at exactly 180 the unclamped formula
yields 61. -/
theorem zone_formula_amended (q : ℚ) (h1 : -180 ≤ q) (h2 : q < 180) :
    select_zone q = ⌊(q + 180) / 6⌋ + 1 ∧
    1 ≤ select_zone q ∧ select_zone q ≤ 60 ∧
    select_zone (-3) = 30 ∧ select_zone 177 = 60 ∧
    select_zone (-180) = 1 ∧ select_zone 180 = 61 := by
  have hq : (0:ℚ) ≤ (q + 180) / 6 := div_nonneg (by linarith) (by norm_num)
  have he : select_zone q = ⌊(q + 180) / 6⌋ + 1 := by
    rw [select_zone, pyInt_nonneg _ hq]
  have hlow : (0:ℤ) ≤ ⌊(q + 180) / 6⌋ := Int.floor_nonneg.mpr hq
  have hhigh : ⌊(q + 180) / 6⌋ < 60 := by
    rw [Int.floor_lt, div_lt_iff₀ (by norm_num : (0:ℚ) < 6)]
    push_cast
    linarith
  refine ⟨he, by rw [he]; omega, by rw [he]; omega,
    by decide, by decide, by decide, by decide⟩

/-- C5 (witness): instantiation at mean longitude 0. -/
theorem zone_formula_witness : 1 ≤ select_zone 0 ∧ select_zone 0 ≤ 60 :=
  ⟨(zone_formula_amended 0 (by norm_num) (by norm_num)).2.1,
   (zone_formula_amended 0 (by norm_num) (by norm_num)).2.2.1⟩

/-- C6 (counterexample): a failure in row 0's latitude and a failure in
row 2's longitude produce the identical error value, so the propagated
error carries neither the failing row's index nor its field — no
RowProcessingError(index, cause) exists in this pipeline. -/
theorem row_error_index_cex :
    load_and_prepare constTransform rowsBadLat0 = Except.error PipeError.typeError ∧
    load_and_prepare constTransform rowsBadLon2 = Except.error PipeError.typeError :=
  ⟨rfl, rfl⟩

/-- C6 (amended): when a per-row conversion sub-step fails, assembly
propagates the first failure as the bare underlying exception, with no
row index or field name attached, and emits no rows at all; on success
it emits exactly one enriched row per input row. -/
theorem row_error_amended (f : ℚ → ℚ → ℚ × ℚ) (rows : List RawRow) :
    (∀ l, load_and_prepare f rows = Except.ok l → l.length = rows.length) ∧
    (∀ e, mapExcept (fun r => applyConvert r.latitude) rows = Except.error e →
      load_and_prepare f rows = Except.error e) := by
  constructor
  · intro l h
    rw [load_and_prepare] at h
    cases h1 : mapExcept (fun r => applyConvert r.latitude) rows with
    | error e => rw [h1, exceptErrorBind] at h; cases h
    | ok lats =>
      rw [h1, exceptOkBind] at h
      cases h2 : mapExcept (fun r => applyConvert r.longitude) rows with
      | error e => rw [h2, exceptErrorBind] at h; cases h
      | ok lons =>
        rw [h2, exceptOkBind] at h
        cases h3 : checkNonempty lons with
        | error e => rw [h3, exceptErrorBind] at h; cases h
        | ok u =>
          rw [h3, exceptOkBind] at h
          cases h4 : mapExcept (fun r => (cellToInt r.time).map format_time_string) rows with
          | error e => rw [h4, exceptErrorBind] at h; cases h
          | ok times =>
            rw [h4, exceptOkBind] at h
            cases h5 : headTime rows with
            | error e => rw [h5, exceptErrorBind] at h; cases h
            | ok startCell =>
              rw [h5, exceptOkBind] at h
              cases h6 : cellToInt startCell with
              | error e => rw [h6, exceptErrorBind] at h; cases h
              | ok startZ =>
                rw [h6, exceptOkBind] at h
                cases h7 : strptimeHMS startZ with
                | error e => rw [h7, exceptErrorBind] at h; cases h
                | ok startS =>
                  rw [h7, exceptOkBind] at h
                  cases h8 : mapExcept (fun r => calculate_relative_seconds r.time startS) rows with
                  | error e => rw [h8, exceptErrorBind] at h; cases h
                  | ok rels =>
                    rw [h8, exceptOkBind] at h
                    cases h
                    exact buildRows_length f (select_zone (pdMean lons)) rows lats lons
                      times rels (mapExcept_ok_length _ rows lats h1)
                      (mapExcept_ok_length _ rows lons h2)
                      (mapExcept_ok_length _ rows times h4)
                      (mapExcept_ok_length _ rows rels h8)
  · intro e he
    rw [load_and_prepare, he]
    rfl

/-- C6 (witness): concrete instantiations of both conjuncts: the
three-row example assembles to exactly three rows, and a NaN latitude in
the only row aborts with the bare `ValueError`. -/
theorem row_error_amended_witness :
    load_and_prepare constTransform rows9 = Except.ok (df9f constTransform) ∧
    (df9f constTransform).length = rows9.length ∧
    load_and_prepare constTransform rowsBadLatNan = Except.error PipeError.valueError :=
  ⟨rfl, (row_error_amended constTransform rows9).1 (df9f constTransform) rfl,
   (row_error_amended constTransform rowsBadLatNan).2 PipeError.valueError rfl⟩

/-- C7 (counterexample): `draw_plots` mutates the record set passed to
it — a non-numeric temperature cell is coerced to missing in place, so a
field of a row is changed after the consumer runs. -/
theorem consumer_mutation_cex : (draw_plots [rowBadTemp]).1 ≠ [rowBadTemp] := by
  decide

/-- The in-place coercion is the identity on a fully numeric row. -/
theorem coerceRow_id (r : Enriched) (h1 : numericCell r.co2 = true)
    (h2 : numericCell r.temperature = true) (h3 : numericCell r.humidity = true) :
    coerceRow r = r := by
  obtain ⟨t, la, lo, c, te, hu, x1, x2, x3, x4, x5, x6, x7⟩ := r
  cases c with
  | num qc =>
    cases te with
    | num qt =>
      cases hu with
      | num qh => rfl
      | str s => simp [numericCell] at h3
      | nan => simp [numericCell] at h3
    | str s => simp [numericCell] at h2
    | nan => simp [numericCell] at h2
  | str s => simp [numericCell] at h1
  | nan => simp [numericCell] at h1

/-- C7 (amended): the exporter leaves the record set unchanged and both
consumers read the stored coordinate conversions rather than recomputing
them; the chart renderer's only mutation is the in-place numeric
coercion of the three measurement columns, which is the identity when
all measurements are numeric; and no color scale is passed in — each
consumer derives the CO2 bounds itself from the frame it receives, by
the same function, so the exporter (run on the chart-coerced frame)
works with the same bounds as the chart. -/
theorem consumer_frame_amended (df : List Enriched)
    (h : ∀ r ∈ df, numericCell r.co2 = true ∧ numericCell r.temperature = true ∧
      numericCell r.humidity = true) :
    (generate_kml_trajectory df).1 = df ∧
    (draw_plots df).1 = df.map coerceRow ∧
    (draw_plots df).1 = df ∧
    (generate_kml_trajectory df).2.1 = df.map (fun r => (r.longitude_dd, r.latitude_dd)) ∧
    co2Bounds ((draw_plots df).1) = co2Bounds df := by
  have hc : df.map coerceRow = df := by
    calc df.map coerceRow
        = df.map id := List.map_congr_left (fun r hr => by
            obtain ⟨h1, h2, h3⟩ := h r hr
            exact coerceRow_id r h1 h2 h3)
      _ = df := List.map_id df
  have hd : (draw_plots df).1 = df := hc
  exact ⟨rfl, rfl, hd, rfl, by rw [hd]⟩

/-- C7 (witness): instantiation on a fully numeric one-row frame. -/
theorem consumer_frame_witness :
    (generate_kml_trajectory [rowNumeric]).1 = [rowNumeric] ∧
    (draw_plots [rowNumeric]).1 = [rowNumeric] :=
  ⟨(consumer_frame_amended [rowNumeric] (by decide)).1,
   (consumer_frame_amended [rowNumeric] (by decide)).2.2.1⟩

/-- C8: for every pair of valid packed HHMMSS times, the reference time
parses to its seconds-since-midnight, and `calculate_relative_seconds`
returns the signed difference of the two times-of-day in total seconds
with no midnight wrapping — in particular 0 when the current time equals
the reference. -/
theorem elapsed_signed_diff (H1 M1 S1 H2 M2 S2 : ℕ)
    (hH1 : H1 < 24) (hM1 : M1 < 60) (hS1 : S1 < 60)
    (hH2 : H2 < 24) (hM2 : M2 < 60) (hS2 : S2 < 60) :
    strptimeHMS ((H2 * 10000 + M2 * 100 + S2 : ℕ) : ℤ)
      = Except.ok ((H2 * 3600 + M2 * 60 + S2 : ℕ) : ℤ) ∧
    calculate_relative_seconds (PyCell.num ((H1 * 10000 + M1 * 100 + S1 : ℕ) : ℚ))
        ((H2 * 3600 + M2 * 60 + S2 : ℕ) : ℤ)
      = Except.ok (((H1 * 3600 + M1 * 60 + S1 : ℕ) : ℤ)
          - ((H2 * 3600 + M2 * 60 + S2 : ℕ) : ℤ)) ∧
    calculate_relative_seconds (PyCell.num ((H1 * 10000 + M1 * 100 + S1 : ℕ) : ℚ))
        ((H1 * 3600 + M1 * 60 + S1 : ℕ) : ℤ)
      = Except.ok 0 := by
  have hcell : cellToInt (PyCell.num ((H1 * 10000 + M1 * 100 + S1 : ℕ) : ℚ))
      = Except.ok ((H1 * 10000 + M1 * 100 + S1 : ℕ) : ℤ) := by
    simp only [cellToInt]
    rw [pyInt_natCast]
  refine ⟨strptime_packed H2 M2 S2 hH2 hM2 hS2, ?_, ?_⟩
  · rw [calculate_relative_seconds, hcell, exceptOkBind,
      strptime_packed H1 M1 S1 hH1 hM1 hS1, exceptOkBind]
  · rw [calculate_relative_seconds, hcell, exceptOkBind,
      strptime_packed H1 M1 S1 hH1 hM1 hS1, exceptOkBind, sub_self]

/-- C8 (witness): elapsed seconds of the packed time 100443 against its
own parsed reference is 0. -/
theorem elapsed_signed_diff_witness :
    calculate_relative_seconds (PyCell.num ((10 * 10000 + 4 * 100 + 43 : ℕ) : ℚ))
        ((10 * 3600 + 4 * 60 + 43 : ℕ) : ℤ) = Except.ok 0 :=
  (elapsed_signed_diff 10 4 43 10 4 43 (by norm_num) (by norm_num) (by norm_num)
    (by norm_num) (by norm_num) (by norm_num)).2.2

/-- C9: end-to-end on the three example rows: assembly succeeds with
exactly 3 enriched readings in input order, display times 10:00:00,
10:01:00, 10:02:00, elapsed seconds 0, 60, 120, and both the chart and
the exporter color the CO2 values 400, 800, 1200 with the ramp's green,
yellow and red anchor colors, for any external projection transform. -/
theorem end_to_end_example (f : ℚ → ℚ → ℚ × ℚ) :
    (load_and_prepare f rows9).map (fun df =>
      (df.length, df.map (fun r => r.time_hhmmss),
       df.map (fun r => r.relative_seconds),
       (draw_plots df).2, (generate_kml_trajectory ((draw_plots df).1)).2.2))
    = Except.ok (3, ["10:00:00", "10:01:00", "10:02:00"], ([0, 60, 120] : List ℤ),
       [green_anchor, yellow_anchor, red_anchor],
       [green_anchor, yellow_anchor, red_anchor]) := by
  have h : load_and_prepare f rows9 = Except.ok (df9f f) := rfl
  have hco : (df9f f).map coerceRow = df9f f := rfl
  have hb : co2Bounds (df9f f) = some (400, 1200) := rfl
  rw [h]
  simp only [Except.map, draw_plots, generate_kml_trajectory, hco, hb]
  rfl

/-- C10: the normalizer is not odd — for a packed value D*100 + M with
D > 0 and 0 < M < 60, converting the negated packed value differs from
the negation of the conversion (Python's floor division and
divisor-signed modulo make the two sides differ by exactly 2/3). -/
theorem convert_not_odd (D : ℕ) (M : ℚ) (_hD : 0 < D) (h0 : 0 < M) (h1 : M < 60) :
    convert_ddmmss_to_dd (-((D : ℚ) * 100 + M))
      ≠ -convert_ddmmss_to_dd ((D : ℚ) * 100 + M) := by
  have hneg : ⌊(-((D : ℚ) * 100 + M)) / 100⌋ = -(D : ℤ) - 1 := by
    rw [Int.floor_eq_iff]
    constructor
    · rw [le_div_iff₀ (by norm_num : (0:ℚ) < 100)]
      push_cast
      linarith
    · rw [div_lt_iff₀ (by norm_num : (0:ℚ) < 100)]
      push_cast
      linarith
  have hpos := floor_packed D M h0.le (by linarith)
  rw [convert_eq, convert_eq, hneg, hpos]
  intro hcontra
  push_cast at hcontra
  field_simp at hcontra
  linarith

/-- C10 (witness): -4530 does not convert to the negation of 4530's
conversion. -/
theorem convert_not_odd_witness :
    convert_ddmmss_to_dd (-(((45 : ℕ) : ℚ) * 100 + 30))
      ≠ -convert_ddmmss_to_dd (((45 : ℕ) : ℚ) * 100 + 30) :=
  convert_not_odd 45 30 (by norm_num) (by norm_num) (by norm_num)
